import Mathlib

/-
Shallow embedding of the KTF task scheduler (src/common/sched.c) in Lean 4.

The scheduler's header files (sched.h, list.h, spinlock.h, errno.h) and the
platform allocators (kzalloc, get_free_page_top) are not part of the sources;
where their contents decide a behaviour they are modelled from the spec and
marked as such in the doc comments. Everything else is translated directly
from src/common/sched.c.

Modelling conventions:
  - C pointers that may be NULL become `Option`; a task is passed by value and
    the functions return the updated value.
  - `task->state` transitions performed via `set_task_state` are additionally
    recorded as `(old, new)` pairs so that state-machine properties can be
    stated; the memory barriers of the C code have no sequential content.
  - Machine integers: `exec_count` is a 64-bit atomic counter, so its
    increment is taken modulo 2^64; `repeat` is a 32-bit unsigned value whose
    decrement only happens on values outside the sentinels {0, 2^32-1}, where
    Nat subtraction agrees with the machine subtraction.
  - Busy-wait loops (`wait_for_task_state`, the run loop, the group wait)
    become fuel-indexed recursions returning `none` when the fuel runs out;
    `none` also models an `ASSERT`/`BUG()` failure (a fatal system halt).
  - printk/dprintk are pure no-ops; the one observable logging decision the
    claims mention (the "Running task" banner in `run_task`) is returned as a
    Boolean flag.
-/

/-- States of a task, in the lifecycle order NEW, READY, SCHEDULED, RUNNING,
DONE used by sched.c (`task_state_t` from sched.h; the order is the one the
spec gives and the one the `task_state_names` table of sched.c lists). -/
inductive task_state where
  | NEW
  | READY
  | SCHEDULED
  | RUNNING
  | DONE
deriving DecidableEq

/-- Numeric value of a task state, matching the C enum order; used by the
`ASSERT(get_task_state(task) <= TASK_STATE_READY)` comparison in
`prepare_task`. -/
def task_state.rank : task_state → Nat
  | .NEW => 0
  | .READY => 1
  | .SCHEDULED => 2
  | .RUNNING => 3
  | .DONE => 4

/-- Task privilege type (`task_type_t`): privileged (kernel) or
unprivileged (user). -/
inductive task_type where
  | KERNEL
  | USER
deriving DecidableEq

/-- Modelled from the spec: sched.h (absent from src/) defines the repeat
sentinels. The spec says a finite count N decrements until it collapses to
the ONCE sentinel and that a count-N task runs N+1 times, so ONCE is the
value 0 reached by decrementing; `set_task_once` in `create_task` stores this
default. -/
def TASK_REPEAT_ONCE : Nat := 0

/-- Modelled from the spec: sched.h (absent from src/) defines the LOOP
sentinel as a value distinct from ONCE and from every finite count; `repeat`
is a 32-bit unsigned value, so the sentinel is its maximum. -/
def TASK_REPEAT_LOOP : Nat := 4294967295

/-- Modelled from the spec: the wildcard "all tasks" group tag that
`create_task` assigns by default (`task->gid = TASK_GROUP_ALL`). -/
def TASK_GROUP_ALL : Nat := 0

/-- Modelled from the spec: errno.h is absent from src/; only the identity of
the codes matters (success, invalid-argument, missing-target). -/
def ESUCCESS : Int := 0

/-- Modelled from the spec: the invalid-argument error code. -/
def EINVAL : Int := 22

/-- Modelled from the spec: the code `schedule_task` returns negated for a
missing target processor. -/
def EEXIST : Int := 17

/-- A task (`task_t`). The C field `repeat` is a reserved word in Lean and is
called `rep` here; `func`/`arg`/`result` model the work item, with the
function pointer embedded as an `Int → Int` map from argument to returned
long. `stack` is the user-stack page (`Option` for a NULL pointer), `cpu` the
owning processor id (`Option` for a NULL pointer). -/
structure task_t where
  id : Nat
  gid : Nat
  name : String
  func : Int → Int
  arg : Int
  type : task_type
  state : task_state
  rep : Nat
  exec_count : Nat
  result : Int
  stack : Option Nat
  cpu : Option Nat

/-- A recorded state transition: (state before, state after). -/
abbrev transition := task_state × task_state

/-- A processor (`cpu_t`) as far as the scheduler uses it: its id and its run
queue. The per-cpu spinlock has no sequential content; lock acquisitions are
logged in `sys_state.locked_cpus` instead. -/
structure cpu_t where
  id : Nat
  task_queue : List task_t

/-- Global state for the operations that touch queues or free memory: the
processors, a log of freed stack pages, a log of freed task objects (by task
id), and a log of the (existing) processors whose queue lock was taken. -/
structure sys_state where
  cpus : List cpu_t
  freed_pages : List Nat
  freed_tasks : List Nat
  locked_cpus : List Nat

/-- sched.c `set_task_state`: store the new state (the ACCESS_ONCE store and
barrier have no sequential content) and record the transition for the
state-machine claims. -/
def set_task_state (task : task_t) (state : task_state) : task_t × transition :=
  ({ task with state := state }, (task.state, state))

/-- sched.c `get_task_state`. -/
def get_task_state (task : task_t) : task_state :=
  task.state

/-- sched.c `create_task`: `kzalloc` may fail (`alloc_ok = false` gives the
NULL return); otherwise the object is zeroed (zero fields below), given the
next id, the wildcard group, state NEW, a zero execution counter and the ONCE
repeat default (`set_task_once`). The zeroed function pointer is modelled as
the constant-zero map. -/
def create_task (alloc_ok : Bool) (tid : Nat) : Option task_t :=
  if alloc_ok then
    some { id := tid, gid := TASK_GROUP_ALL, name := "", func := fun _ => 0,
           arg := 0, type := task_type.KERNEL, state := task_state.NEW,
           rep := TASK_REPEAT_ONCE, exec_count := 0, result := 0,
           stack := none, cpu := none }
  else
    none

/-- sched.c `prepare_task`: a NULL handle returns -EINVAL; a state above READY
fails the ASSERT (`none`, a fatal halt); otherwise name, function, argument
and type are attached, a user task gets the page the allocator returned
(`page_alloc` is the `get_free_page_top(GFP_USER)` result, an `Option`
because the allocator may fail -- the code does not check it), and the state
is set to READY. Returns (code, task, recorded transitions). -/
def prepare_task (otask : Option task_t) (name : String) (func : Int → Int)
    (arg : Int) (type : task_type) (page_alloc : Option Nat) :
    Option (Int × Option task_t × List transition) :=
  match otask with
  | none => some (-EINVAL, none, [])
  | some task =>
    if task.state.rank ≤ task_state.READY.rank then
      let task1 := { task with name := name, func := func, arg := arg, type := type }
      let task2 := if task1.type = task_type.USER then { task1 with stack := page_alloc } else task1
      let (task3, tr) := set_task_state task2 task_state.READY
      some (ESUCCESS, some task3, [tr])
    else
      none

/-- sched.c `destroy_task`: a NULL task is a no-op; otherwise the owning
processor's lock is taken, the task is unlinked from its queue, the stack
page (if any) is released and the task object is freed.
Modelled from the spec for the parts list.h/spinlock.h would decide: a task
that was never submitted has no owning processor and is linked into no run
queue, so no existing processor's lock is acquired and no queue changes; for
a submitted task the owning processor's lock is logged and the task removed
from that processor's queue. -/
def destroy_task : Option task_t → sys_state → sys_state
  | none, s => s
  | some task, s =>
    let s1 :=
      match task.cpu with
      | some cid =>
        { s with
          locked_cpus := s.locked_cpus ++ [cid],
          cpus := s.cpus.map fun (c : cpu_t) =>
            if c.id = cid then
              { c with task_queue := c.task_queue.filter fun t => t.id ≠ task.id }
            else c }
      | none => s
    { s1 with
      freed_pages := s1.freed_pages ++ task.stack.toList,
      freed_tasks := s1.freed_tasks ++ [task.id] }

/-- sched.c `new_task` = `create_task` + `prepare_task`, destroying the task
when preparation fails. The Boolean records whether the preparation-failure
cleanup branch (`destroy_task` + NULL return) was taken. -/
def new_task_impl (alloc_ok : Bool) (tid : Nat) (name : String) (func : Int → Int)
    (arg : Int) (type : task_type) (page_alloc : Option Nat) :
    Option task_t × Bool :=
  match create_task alloc_ok tid with
  | none => (none, false)
  | some task =>
    match prepare_task (some task) name func arg type page_alloc with
    | some (rc, otask, _) =>
      if rc ≠ ESUCCESS then (none, true) else (otask, false)
    | none => (none, false)

/-- sched.c `new_task`: the task handle `new_task_impl` produces. -/
def new_task (alloc_ok : Bool) (tid : Nat) (name : String) (func : Int → Int)
    (arg : Int) (type : task_type) (page_alloc : Option Nat) : Option task_t :=
  (new_task_impl alloc_ok tid name func arg type page_alloc).1

/-- sched.c `schedule_task`: a NULL target processor is the missing-target
error (-EEXIST), logged as a warning, with the task and every queue left
unchanged; otherwise the READY precondition is ASSERTed (`none` on
violation), the task is appended to the tail of the target's queue, its
owning-processor reference set and its state advanced to SCHEDULED. Returns
(code, task, processors, recorded transitions). -/
def schedule_task (task : task_t) (target : Option Nat) (cpus : List cpu_t) :
    Option (Int × task_t × List cpu_t × List transition) :=
  match target with
  | none => some (-EEXIST, task, cpus, [])
  | some cid =>
    if task.state = task_state.READY then
      let task0 := { task with cpu := some cid }
      let (task1, tr) := set_task_state task0 task_state.SCHEDULED
      some (0, task1,
        cpus.map (fun c =>
          if c.id = cid then { c with task_queue := c.task_queue ++ [task1] } else c),
        [tr])
    else
      none

/-- sched.c `run_task`, as dispatched by the run loop: the initial
`wait_for_task_state(task, TASK_STATE_SCHEDULED)` never returns on a task
that is not SCHEDULED (modelled as `none`); otherwise the 64-bit execution
counter is incremented, the "Running task" banner is printed iff the
post-increment value is zero (the returned Boolean), the state goes to
RUNNING, the function runs (through the usermode trampoline for a user task,
directly otherwise -- either way the result is `func arg`), and the state
goes to DONE. -/
def run_task (task : task_t) : Option (task_t × Bool × List transition) :=
  if task.state = task_state.SCHEDULED then
    let ec := (task.exec_count + 1) % 2 ^ 64
    let (t1, tr1) := set_task_state { task with exec_count := ec } task_state.RUNNING
    let t2 := { t1 with result := t1.func t1.arg }
    let (t3, tr2) := set_task_state t2 task_state.DONE
    some (t3, ec == 0, [tr1, tr2])
  else
    none

/-- sched.c `process_task_repeat`: ONCE destroys the task (`none`, with the
completion line logged); LOOP reschedules it; a finite count is decremented
and the task rescheduled. Returns the surviving task and the recorded
transitions. -/
def process_task_repeat (task : task_t) : Option task_t × List transition :=
  if task.rep = TASK_REPEAT_ONCE then
    (none, [])
  else if task.rep = TASK_REPEAT_LOOP then
    let (t1, tr) := set_task_state task task_state.SCHEDULED
    (some t1, [tr])
  else
    let task1 := { task with rep := task.rep - 1 }
    let (t1, tr) := set_task_state task1 task_state.SCHEDULED
    (some t1, [tr])

/-- One `list_for_each_entry_safe` scan of the run-loop body of sched.c
`run_tasks`: each task is dispatched on its state -- DONE is retired through
`process_task_repeat` (destroyed tasks are collected in the second list,
their value at destruction recording the counter and the freed stack),
SCHEDULED is executed through `run_task`, anything else is `BUG()` (`none`).
The safe iterator caches the next link, so a task changed or unlinked by the
dispatch is not revisited within the scan. -/
def run_queue_pass : List task_t → Option (List task_t × List task_t)
  | [] => some ([], [])
  | task :: rest =>
    match task.state with
    | task_state.DONE =>
      match process_task_repeat task with
      | (none, _) => (run_queue_pass rest).map fun qd => (qd.1, task :: qd.2)
      | (some t1, _) => (run_queue_pass rest).map fun qd => (t1 :: qd.1, qd.2)
    | task_state.SCHEDULED =>
      match run_task task with
      | none => none
      | some (t1, _, _) => (run_queue_pass rest).map fun qd => (t1 :: qd.1, qd.2)
    | _ => none

/-- The do-while drain loop of sched.c `run_tasks` (the SMP block/unblock
handshake around it is external bring-up signalling with no effect on the
queue): scan the queue, repeat while it is non-empty, and return the tasks
destroyed along the way once it empties. Fuel-indexed; `none` means the fuel
ran out (e.g. a LOOP task never lets the queue empty) or a scan hit
`BUG()`. -/
def run_tasks_loop : Nat → List task_t → Option (List task_t)
  | 0, _ => none
  | fuel + 1, q =>
    match run_queue_pass q with
    | none => none
    | some qd =>
      if qd.1.isEmpty then some qd.2
      else (run_tasks_loop fuel qd.1).map fun d => qd.2 ++ d

/-- sched.c `wait_for_task_group`, group-match test: the wildcard matches
every task, otherwise the task's gid must equal the group (the negation of
the `continue` guard). -/
def task_group_matches (group : Nat) (task : task_t) : Bool :=
  group == TASK_GROUP_ALL || task.gid == group

/-- One scan of sched.c `wait_for_task_group`: `busy` is true iff some task
matching the group is observed in a state other than DONE. (The inner
`wait_for_task_state(task, TASK_STATE_DONE)` then blocks on that task, which
does not change `busy`; the states other processors publish between scans are
supplied by the snapshot stream of the loop below.) -/
def wait_pass_busy (q : List task_t) (group : Nat) : Bool :=
  q.any fun task => task_group_matches group task && !(task.state == task_state.DONE)

/-- The do-while loop of sched.c `wait_for_task_group`: pass k scans the
queue as the concurrent system presents it at that pass (`snap k`); while a
pass observes a matching task not DONE the loop runs another full pass.
Returns the index of the pass after which it returned, `none` when the fuel
runs out. -/
def wait_for_task_group_loop (fuel : Nat) (snap : Nat → List task_t) (group : Nat)
    (k : Nat) : Option Nat :=
  match fuel with
  | 0 => none
  | fuel + 1 =>
    if wait_pass_busy (snap k) group then
      wait_for_task_group_loop fuel snap group (k + 1)
    else
      some k

/-- sched.c `wait_for_task_group`, started at pass 0. -/
def wait_for_task_group (fuel : Nat) (snap : Nat → List task_t) (group : Nat) :
    Option Nat :=
  wait_for_task_group_loop fuel snap group 0

/-- The scheduler operations a task is driven through after creation, as the
spec's lifecycle names them: prepare (`prepare_task`), submit
(`schedule_task`), run and retire (the run loop's dispatch of `run_task` on a
SCHEDULED task and of `process_task_repeat` on a DONE task). -/
inductive sched_op where
  | prepare (name : String) (func : Int → Int) (arg : Int) (type : task_type)
      (page_alloc : Option Nat)
  | submit (target : Option Nat)
  | run
  | retire

/-- True for the operations a prepared task goes through (submit, run,
retire); false for prepare. -/
def sched_op.is_lifecycle : sched_op → Bool
  | .prepare _ _ _ _ _ => false
  | _ => true

/-- A state-transition event: the task's `repeat` value when the operation
entered, and the (old, new) states of one `set_task_state` call it made. -/
abbrev event := Nat × task_state × task_state

/-- Apply one scheduler operation to a task. `none` is a fatal halt (an
ASSERT/BUG violation) or a busy-wait that never returns; `some (none, evs)`
means the operation destroyed the task. `retire` carries the run loop's
dispatch guard: `process_task_repeat` is reached only for a task observed
DONE. Each recorded transition is tagged with the task's `repeat` value at
operation entry. -/
def step : sched_op → task_t → Option (Option task_t × List event)
  | .prepare n f a ty pa, t =>
    match prepare_task (some t) n f a ty pa with
    | some (_, some t1, trs) => some (some t1, trs.map fun tr => (t.rep, tr))
    | _ => none
  | .submit target, t =>
    match schedule_task t target [] with
    | some (_, t1, _, trs) => some (some t1, trs.map fun tr => (t.rep, tr))
    | none => none
  | .run, t =>
    match run_task t with
    | some (t1, _, trs) => some (some t1, trs.map fun tr => (t.rep, tr))
    | none => none
  | .retire, t =>
    if t.state = task_state.DONE then
      match process_task_repeat t with
      | (ot1, trs) => some (ot1, trs.map fun tr => (t.rep, tr))
    else
      none

/-- The state-transition events a sequence of operations produces, starting
from a given task; a halt or a destruction ends the sequence. -/
def exec_ops : List sched_op → task_t → List event
  | [], _ => []
  | op :: ops, t =>
    match step op t with
    | none => []
    | some (none, evs) => evs
    | some (some t1, evs) => evs ++ exec_ops ops t1

/-- The task values reached while a sequence of operations executes, starting
from (and including) the initial one. -/
def task_states_along : List sched_op → task_t → List task_t
  | [], t => [t]
  | op :: ops, t =>
    t :: match step op t with
    | none => []
    | some (none, _) => []
    | some (some t1, _) => task_states_along ops t1

/-- One forward edge of the lifecycle chain NEW → READY → SCHEDULED →
RUNNING → DONE. -/
def forward_edge (s s1 : task_state) : Prop :=
  s1.rank = s.rank + 1

/-- A legal state-transition event: no change, one forward edge of the
chain, or the single backward edge DONE → SCHEDULED, the latter only with
the repeat policy at retirement being LOOP or a finite count N > 0. -/
def valid_event (e : event) : Prop :=
  e.2.1 = e.2.2 ∨ forward_edge e.2.1 e.2.2 ∨
    (e.2.1 = task_state.DONE ∧ e.2.2 = task_state.SCHEDULED ∧
      (e.1 = TASK_REPEAT_LOOP ∨ (0 < e.1 ∧ e.1 ≠ TASK_REPEAT_LOOP)))

/-- Helper: one run-loop scan of a single-task queue holding a SCHEDULED
task executes it: counter +1, state DONE, everything else untouched. -/
lemma run_pass_single_scheduled (t : task_t) (h : t.state = task_state.SCHEDULED)
    (hlt : t.exec_count + 1 < 2 ^ 64) :
    ∃ t1, run_queue_pass [t] = some ([t1], []) ∧ t1.state = task_state.DONE ∧
      t1.exec_count = t.exec_count + 1 ∧ t1.rep = t.rep ∧ t1.stack = t.stack ∧
      t1.id = t.id := by
  refine ⟨{ t with
              exec_count := (t.exec_count + 1) % 2 ^ 64,
              state := task_state.DONE,
              result := t.func t.arg }, ?_, ?_, ?_, ?_, ?_, ?_⟩ <;>
    simp [run_queue_pass, run_task, h, set_task_state, Nat.mod_eq_of_lt] <;> omega

/-- Helper: one run-loop scan of a single-task queue holding a DONE task with
the ONCE policy destroys it. -/
lemma run_pass_single_done_once (t : task_t) (h : t.state = task_state.DONE)
    (h0 : t.rep = TASK_REPEAT_ONCE) :
    run_queue_pass [t] = some ([], [t]) := by
  simp [run_queue_pass, process_task_repeat, h, h0]

/-- Helper: one run-loop scan of a single-task queue holding a DONE task with
a finite repeat count decrements the count and reschedules it. -/
lemma run_pass_single_done_finite (t : task_t) (h : t.state = task_state.DONE)
    (h0 : t.rep ≠ TASK_REPEAT_ONCE) (hl : t.rep ≠ TASK_REPEAT_LOOP) :
    ∃ t1, run_queue_pass [t] = some ([t1], []) ∧ t1.state = task_state.SCHEDULED ∧
      t1.rep = t.rep - 1 ∧ t1.exec_count = t.exec_count ∧ t1.stack = t.stack ∧
      t1.id = t.id := by
  refine ⟨{ t with
              rep := t.rep - 1,
              state := task_state.SCHEDULED }, ?_, ?_, ?_, ?_, ?_, ?_⟩ <;>
    simp [run_queue_pass, process_task_repeat, h, h0, hl, set_task_state]

/-- Helper: a scan that leaves the queue non-empty makes the drain loop
continue on the remaining queue. -/
lemma run_tasks_loop_cons {q q1 d : List task_t} (fuel : Nat)
    (h : run_queue_pass q = some (q1, d)) (hne : q1.isEmpty = false) :
    run_tasks_loop (fuel + 1) q = (run_tasks_loop fuel q1).map fun r => d ++ r := by
  simp [run_tasks_loop, h, hne]

/-- Helper: a scan that empties the queue ends the drain loop. -/
lemma run_tasks_loop_last {q d : List task_t} (fuel : Nat)
    (h : run_queue_pass q = some ([], d)) :
    run_tasks_loop (fuel + 1) q = some d := by
  simp [run_tasks_loop, h]

/-- Helper: a single SCHEDULED task with finite repeat count r is run r + 1
times by the drain loop and then destroyed, leaving the queue empty; the task
value at destruction carries the final counter, the collapsed ONCE count and
the untouched stack. Each run/retire cycle takes two scans: one execution and
one decrementing retirement. -/
lemma run_finite_repeat (r : Nat) :
    ∀ t : task_t, t.state = task_state.SCHEDULED → t.rep = r →
      r < TASK_REPEAT_LOOP → t.exec_count + r + 1 < 2 ^ 64 →
      ∃ tf, run_tasks_loop (2 * r + 3) [t] = some [tf] ∧
        tf.exec_count = t.exec_count + r + 1 ∧ tf.rep = TASK_REPEAT_ONCE ∧
        tf.stack = t.stack ∧ tf.id = t.id := by
  induction r with
  | zero =>
    intro t hs hr _ hlt
    obtain ⟨t1, hp1, hst1, hec1, hrep1, hstk1, hid1⟩ :=
      run_pass_single_scheduled t hs (by omega)
    have hp2 := run_pass_single_done_once t1 hst1 (hrep1.trans hr)
    refine ⟨t1, ?_, by omega, hrep1.trans hr, hstk1, hid1⟩
    rw [show 2 * 0 + 3 = (1 + 1) + 1 from rfl,
      run_tasks_loop_cons (1 + 1) hp1 rfl, run_tasks_loop_last 1 hp2]
    simp
  | succ r ih =>
    intro t hs hr hloop hlt
    obtain ⟨t1, hp1, hst1, hec1, hrep1, hstk1, hid1⟩ :=
      run_pass_single_scheduled t hs (by omega)
    obtain ⟨t2, hp2, hst2, hrep2, hec2, hstk2, hid2⟩ :=
      run_pass_single_done_finite t1 hst1
        (by rw [hrep1, hr]; simp [TASK_REPEAT_ONCE])
        (by rw [hrep1, hr]; omega)
    obtain ⟨tf, hloop3, hecf, hrepf, hstkf, hidf⟩ :=
      ih t2 hst2 (by rw [hrep2, hrep1, hr]; omega) (by omega) (by omega)
    refine ⟨tf, ?_, by omega, hrepf, by rw [hstkf, hstk2, hstk1],
      by rw [hidf, hid2, hid1]⟩
    rw [show 2 * (r + 1) + 3 = ((2 * r + 3) + 1) + 1 from by ring,
      run_tasks_loop_cons ((2 * r + 3) + 1) hp1 rfl,
      run_tasks_loop_cons (2 * r + 3) hp2 rfl, hloop3]
    simp

/-- Helper: `destroy_task` always frees the stack page it holds (if any) and
the task object itself, whatever the queue situation. -/
lemma destroy_task_frees (task : task_t) (s : sys_state) :
    (destroy_task (some task) s).freed_pages = s.freed_pages ++ task.stack.toList ∧
    (destroy_task (some task) s).freed_tasks = s.freed_tasks ++ [task.id] := by
  cases h : task.cpu <;> simp [destroy_task, h]

/-- Helper: the fields a successful `new_task` gives a fresh task: prepared
(READY), the ONCE repeat default, a zero execution counter, no owning
processor, the requested id and type, and the allocator's page iff the task
is a user task. -/
lemma new_task_fields {tid : Nat} {n : String} {f : Int → Int} {a : Int}
    {ty : task_type} {pa : Option Nat} {t : task_t}
    (h : new_task true tid n f a ty pa = some t) :
    t.state = task_state.READY ∧ t.rep = TASK_REPEAT_ONCE ∧ t.exec_count = 0 ∧
    t.cpu = none ∧ t.id = tid ∧ t.type = ty ∧
    t.stack = (if ty = task_type.USER then pa else none) := by
  cases ty <;>
  · simp [new_task, new_task_impl, create_task, prepare_task, set_task_state,
      task_state.rank, ESUCCESS, EINVAL] at h
    subst h
    simp [TASK_REPEAT_ONCE]

/-- Helper: submitting a READY task to an existing processor succeeds, sets
the owner, advances the state and appends the final task value to that
processor's queue. -/
lemma schedule_task_ready {t : task_t} (cid : Nat) (cpus : List cpu_t)
    (hready : t.state = task_state.READY) :
    schedule_task t (some cid) cpus =
      some (0, { t with cpu := some cid, state := task_state.SCHEDULED },
        cpus.map (fun c =>
          if c.id = cid then
            { c with task_queue :=
                c.task_queue ++ [{ t with cpu := some cid, state := task_state.SCHEDULED }] }
          else c),
        [(task_state.READY, task_state.SCHEDULED)]) := by
  simp [schedule_task, set_task_state, hready]

/-- A concrete task-function value for witnesses. -/
def const_zero : Int → Int := fun _ => 0

/-- A concrete task value for witnesses: state, repeat count and execution
counter as given, everything else fixed. -/
def wtask (st : task_state) (rep0 exec0 : Nat) : task_t :=
  { id := 0, gid := 0, name := "w", func := const_zero, arg := 0,
    type := task_type.KERNEL, state := st, rep := rep0, exec_count := exec0,
    result := 0, stack := none, cpu := none }

/-- C1: a task scheduled with a finite repeat count N > 0 (neither the ONCE
nor the LOOP sentinel) and driven by its processor's run loop has its
function executed exactly N + 1 times -- the execution counter, incremented
once per execution, is N + 1 on the task value the loop destroys, after which
the queue is empty (`some` result of the drain loop) -- and its repeat count
has collapsed to the ONCE sentinel at destruction; moreover every retirement
of a task with a finite count decrements the stored count and returns the
task to SCHEDULED. -/
theorem repeat_count_runs_n_plus_one (N : Nat) (t u : task_t)
    (hs : t.state = task_state.SCHEDULED) (hr : t.rep = N)
    (he : t.exec_count = 0) (hpos : 0 < N) (hloop : N < TASK_REPEAT_LOOP)
    (hu0 : u.rep ≠ TASK_REPEAT_ONCE) (hul : u.rep ≠ TASK_REPEAT_LOOP) :
    (∃ tf, run_tasks_loop (2 * N + 3) [t] = some [tf] ∧
      tf.exec_count = N + 1 ∧ tf.rep = TASK_REPEAT_ONCE) ∧
    process_task_repeat u =
      (some { u with rep := u.rep - 1, state := task_state.SCHEDULED },
        [(u.state, task_state.SCHEDULED)]) := by
  constructor
  · have hN : N < 4294967295 := hloop
    have h64 : (2 : Nat) ^ 64 = 18446744073709551616 := by norm_num
    obtain ⟨tf, h1, h2, h3, _, _⟩ :=
      run_finite_repeat N t hs hr hloop (by rw [he, h64]; omega)
    exact ⟨tf, h1, by omega, h3⟩
  · simp [process_task_repeat, set_task_state, hu0, hul]

/-- C1 witness: N = 3 gives 4 executions; a DONE task with count 5 retires to
SCHEDULED with count 4. -/
theorem repeat_count_runs_n_plus_one_witness :
    (∃ tf, run_tasks_loop 9 [wtask task_state.SCHEDULED 3 0] = some [tf] ∧
      tf.exec_count = 4 ∧ tf.rep = TASK_REPEAT_ONCE) ∧
    process_task_repeat (wtask task_state.DONE 5 0) =
      (some { wtask task_state.DONE 5 0 with rep := 4, state := task_state.SCHEDULED },
        [(task_state.DONE, task_state.SCHEDULED)]) :=
  repeat_count_runs_n_plus_one 3 (wtask task_state.SCHEDULED 3 0)
    (wtask task_state.DONE 5 0) rfl rfl rfl (by decide) (by decide)
    (by decide) (by decide)

/-- C4: a ONCE task that is scheduled and driven by the run loop is retired
after exactly one execution: the counter on the destroyed task value is 1,
the queue is left empty, the destroyed value still owns the task's stack, and
destroying it frees that stack (if any) and the task object. -/
theorem once_task_retired_after_one_run (t : task_t) (s : sys_state)
    (hs : t.state = task_state.SCHEDULED) (hr : t.rep = TASK_REPEAT_ONCE)
    (he : t.exec_count = 0) :
    ∃ tf, run_tasks_loop 3 [t] = some [tf] ∧ tf.exec_count = 1 ∧
      tf.stack = t.stack ∧ tf.id = t.id ∧
      (destroy_task (some tf) s).freed_pages = s.freed_pages ++ tf.stack.toList ∧
      (destroy_task (some tf) s).freed_tasks = s.freed_tasks ++ [tf.id] := by
  obtain ⟨tf, h1, h2, _, h4, h5⟩ :=
    run_finite_repeat 0 t hs hr (by decide) (by rw [he]; norm_num)
  obtain ⟨hf1, hf2⟩ := destroy_task_frees tf s
  exact ⟨tf, h1, by omega, h4, h5, hf1, hf2⟩

/-- C4 witness at a concrete ONCE task and empty system state. -/
theorem once_task_retired_after_one_run_witness :
    ∃ tf, run_tasks_loop 3 [wtask task_state.SCHEDULED 0 0] = some [tf] ∧
      tf.exec_count = 1 ∧ tf.stack = (wtask task_state.SCHEDULED 0 0).stack ∧
      tf.id = (wtask task_state.SCHEDULED 0 0).id ∧
      (destroy_task (some tf) ⟨[], [], [], []⟩).freed_pages = [] ++ tf.stack.toList ∧
      (destroy_task (some tf) ⟨[], [], [], []⟩).freed_tasks = [] ++ [tf.id] :=
  once_task_retired_after_one_run (wtask task_state.SCHEDULED 0 0)
    ⟨[], [], [], []⟩ rfl rfl rfl

/-- C10: a task constructed by `new_task` carries the ONCE default repeat
policy, so if its policy is not reconfigured before submission, submitting it
and driving the owning processor's run loop executes it exactly once and then
destroys it. -/
theorem constructed_task_defaults_to_once (tid : Nat) (n : String)
    (f : Int → Int) (a : Int) (ty : task_type) (pa : Option Nat) (cid : Nat)
    (cpus : List cpu_t) (t : task_t)
    (h : new_task true tid n f a ty pa = some t) :
    t.rep = TASK_REPEAT_ONCE ∧
    ∃ t1 cpus1, schedule_task t (some cid) cpus =
        some (0, t1, cpus1, [(task_state.READY, task_state.SCHEDULED)]) ∧
      ∃ tf, run_tasks_loop 3 [t1] = some [tf] ∧ tf.exec_count = 1 := by
  obtain ⟨hst, hrep, hexec, -, -, -, -⟩ := new_task_fields h
  refine ⟨hrep, { t with cpu := some cid, state := task_state.SCHEDULED }, _,
    schedule_task_ready cid cpus hst, ?_⟩
  obtain ⟨tf, h1, h2, _, _, _⟩ :=
    run_finite_repeat 0 { t with cpu := some cid, state := task_state.SCHEDULED }
      rfl (by simpa using hrep) (by decide)
      (by show t.exec_count + 0 + 1 < 2 ^ 64; rw [hexec]; norm_num)
  have h2a : tf.exec_count = t.exec_count + 0 + 1 := h2
  exact ⟨tf, h1, by rw [h2a, hexec]⟩

/-- C5: `run_task` on a dispatched (SCHEDULED) task emits the "Running task"
banner exactly when the post-increment value of the 64-bit execution counter
is zero (the Boolean in its result); the counter starts at zero on every task
`create_task` builds, and with a zero counter the post-increment value is
one, so the banner condition is false on the task's first execution. -/
theorem run_start_banner_never_fires_on_first_run (t : task_t) (ok : Bool)
    (tid : Nat) (u : task_t) (hs : t.state = task_state.SCHEDULED)
    (hc : create_task ok tid = some u) :
    run_task t = some ({ t with
        exec_count := (t.exec_count + 1) % 2 ^ 64,
        state := task_state.DONE,
        result := t.func t.arg },
      ((t.exec_count + 1) % 2 ^ 64 == 0),
      [(task_state.SCHEDULED, task_state.RUNNING),
        (task_state.RUNNING, task_state.DONE)]) ∧
    u.exec_count = 0 ∧
    (t.exec_count = 0 → ((t.exec_count + 1) % 2 ^ 64 == 0) = false) := by
  refine ⟨by simp [run_task, hs, set_task_state], ?_, ?_⟩
  · cases ok <;> simp [create_task] at hc <;> simp [← hc]
  · intro h0
    rw [h0]
    decide

/-- C5 witness: a concrete SCHEDULED task with counter zero and a concrete
creation. -/
theorem run_start_banner_never_fires_on_first_run_witness :
    run_task (wtask task_state.SCHEDULED 0 0) =
      some ({ wtask task_state.SCHEDULED 0 0 with
          exec_count := ((wtask task_state.SCHEDULED 0 0).exec_count + 1) % 2 ^ 64,
          state := task_state.DONE,
          result := (wtask task_state.SCHEDULED 0 0).func (wtask task_state.SCHEDULED 0 0).arg },
        (((wtask task_state.SCHEDULED 0 0).exec_count + 1) % 2 ^ 64 == 0),
        [(task_state.SCHEDULED, task_state.RUNNING),
          (task_state.RUNNING, task_state.DONE)]) ∧
    (⟨0, 0, "", const_zero, 0, task_type.KERNEL, task_state.NEW, 0, 0, 0,
      none, none⟩ : task_t).exec_count = 0 ∧
    ((wtask task_state.SCHEDULED 0 0).exec_count = 0 →
      (((wtask task_state.SCHEDULED 0 0).exec_count + 1) % 2 ^ 64 == 0) = false) :=
  run_start_banner_never_fires_on_first_run (wtask task_state.SCHEDULED 0 0)
    true 0 ⟨0, 0, "", const_zero, 0, task_type.KERNEL, task_state.NEW, 0, 0, 0,
      none, none⟩ rfl rfl

/-- C9: on a non-NULL handle in a preparable state, `prepare_task` returns
success whatever the user-stack allocation returned (the result is never
checked); consequently the preparation-failure cleanup branch of `new_task`
is never taken, and `new_task` returns no task exactly when the task-object
allocation fails. -/
theorem prepare_ignores_stack_allocation (t : task_t) (n : String)
    (f : Int → Int) (a : Int) (ty : task_type) (pa : Option Nat) (ok : Bool)
    (tid : Nat) (h : t.state.rank ≤ task_state.READY.rank) :
    (∃ t1, prepare_task (some t) n f a ty pa =
      some (ESUCCESS, some t1, [(t.state, task_state.READY)])) ∧
    (new_task_impl ok tid n f a ty pa).2 = false ∧
    (new_task ok tid n f a ty pa = none ↔ ok = false) := by
  refine ⟨?_, ?_, ?_⟩
  · cases ty
    · exact ⟨{ t with
          name := n,
          func := f,
          arg := a,
          type := task_type.KERNEL,
          state := task_state.READY },
        by simp [prepare_task, set_task_state, h]⟩
    · exact ⟨{ t with
          name := n,
          func := f,
          arg := a,
          type := task_type.USER,
          state := task_state.READY,
          stack := pa },
        by simp [prepare_task, set_task_state, h]⟩
  · cases ok <;> cases ty <;>
      simp [new_task, new_task_impl, create_task, prepare_task,
        set_task_state, task_state.rank, ESUCCESS, EINVAL]
  · cases ok <;> cases ty <;>
      simp [new_task, new_task_impl, create_task, prepare_task,
        set_task_state, task_state.rank, ESUCCESS, EINVAL]

/-- C9 witness: a NEW task with a failed page allocation is still prepared
successfully, and `new_task` with a successful object allocation returns a
task. -/
theorem prepare_ignores_stack_allocation_witness :
    (∃ t1, prepare_task (some (wtask task_state.NEW 0 0)) "p" const_zero 0
        task_type.USER none =
      some (ESUCCESS, some t1, [((wtask task_state.NEW 0 0).state, task_state.READY)])) ∧
    (new_task_impl true 7 "p" const_zero 0 task_type.USER none).2 = false ∧
    (new_task true 7 "p" const_zero 0 task_type.USER none = none ↔ true = false) :=
  prepare_ignores_stack_allocation (wtask task_state.NEW 0 0) "p" const_zero 0
    task_type.USER none true 7 (by decide)

/-- The run queues of the processors with a given id (observation used to
compare queue states). -/
def cpu_queues (cpus : List cpu_t) (cid : Nat) : List (List task_t) :=
  (cpus.filter fun c => c.id == cid).map cpu_t.task_queue

/-- Helper: `cpu_queues` unfolded one processor. -/
lemma cpu_queues_cons (c : cpu_t) (cs : List cpu_t) (cid : Nat) :
    cpu_queues (c :: cs) cid =
      if c.id = cid then c.task_queue :: cpu_queues cs cid else cpu_queues cs cid := by
  by_cases h : c.id = cid <;> simp [cpu_queues, h]

/-- Helper: appending a task to the queues of processors with id `cid`
appends it to exactly the queues `cpu_queues` sees under `cid`. -/
lemma cpu_queues_update_eq (cid : Nat) (tk : task_t) (cpus : List cpu_t) :
    cpu_queues (cpus.map fun c =>
      if c.id = cid then { c with task_queue := c.task_queue ++ [tk] } else c) cid =
    (cpu_queues cpus cid).map fun q => q ++ [tk] := by
  induction cpus with
  | nil => simp [cpu_queues]
  | cons c cs ih =>
    by_cases h : c.id = cid <;> simp [cpu_queues_cons, h, ih]

/-- Helper: the same update leaves queues of every other id unchanged. -/
lemma cpu_queues_update_ne (cid other : Nat) (tk : task_t) (hne : other ≠ cid)
    (cpus : List cpu_t) :
    cpu_queues (cpus.map fun c =>
      if c.id = cid then { c with task_queue := c.task_queue ++ [tk] } else c) other =
    cpu_queues cpus other := by
  induction cpus with
  | nil => simp
  | cons c cs ih =>
    by_cases h : c.id = cid
    · simp [cpu_queues_cons, h, Ne.symm hne, ih]
    · simp [cpu_queues_cons, h, ih]

/-- C8: submitting a READY task with an absent (NULL) target processor
returns the missing-target error -EEXIST and changes nothing: the task, the
processors and their queues are returned untouched and no state transition is
recorded; with an existing target processor the call returns 0, the task's
owner is set to that processor, its state advances to SCHEDULED (the one
recorded transition), and the task is appended at the tail of that
processor's queue while every other processor's queues are unchanged. -/
theorem schedule_task_submission (t : task_t) (cpus : List cpu_t)
    (cid other : Nat) (hready : t.state = task_state.READY)
    (hother : other ≠ cid) :
    schedule_task t none cpus = some (-EEXIST, t, cpus, []) ∧
    ∃ t1 cpus1, schedule_task t (some cid) cpus =
        some (0, t1, cpus1, [(task_state.READY, task_state.SCHEDULED)]) ∧
      t1.state = task_state.SCHEDULED ∧ t1.cpu = some cid ∧ t1.id = t.id ∧
      cpu_queues cpus1 cid = (cpu_queues cpus cid).map (fun q => q ++ [t1]) ∧
      cpu_queues cpus1 other = cpu_queues cpus other := by
  refine ⟨by simp [schedule_task], ?_⟩
  refine ⟨{ t with cpu := some cid, state := task_state.SCHEDULED }, _,
    schedule_task_ready cid cpus hready, rfl, rfl, rfl, ?_, ?_⟩
  · exact cpu_queues_update_eq cid _ cpus
  · exact cpu_queues_update_ne cid other _ hother cpus

/-- C8 witness: one processor (id 0) with an empty queue, an absent and an
existing target. -/
theorem schedule_task_submission_witness :
    schedule_task (wtask task_state.READY 0 0) none [⟨0, []⟩] =
      some (-EEXIST, wtask task_state.READY 0 0, [⟨0, []⟩], []) ∧
    ∃ t1 cpus1, schedule_task (wtask task_state.READY 0 0) (some 0) [⟨0, []⟩] =
        some (0, t1, cpus1, [(task_state.READY, task_state.SCHEDULED)]) ∧
      t1.state = task_state.SCHEDULED ∧ t1.cpu = some 0 ∧
      t1.id = (wtask task_state.READY 0 0).id ∧
      cpu_queues cpus1 0 = (cpu_queues [⟨0, []⟩] 0).map (fun q => q ++ [t1]) ∧
      cpu_queues cpus1 1 = cpu_queues [⟨0, []⟩] 1 :=
  schedule_task_submission (wtask task_state.READY 0 0) [⟨0, []⟩] 0 1 rfl
    (by decide)

/-- C6: a task built by `new_task` and never submitted has no owning
processor; destroying it leaves every processor and queue exactly as it was,
acquires no existing processor's queue lock, and frees exactly the task's
stack page (the allocator's page, for a user task; no page otherwise) and the
task object itself. -/
theorem destroy_unsubmitted_task_touches_no_queue (tid : Nat) (n : String)
    (f : Int → Int) (a : Int) (ty : task_type) (pa : Option Nat) (t : task_t)
    (s : sys_state) (h : new_task true tid n f a ty pa = some t) :
    t.cpu = none ∧ (ty = task_type.USER → t.stack = pa) ∧
    (destroy_task (some t) s).cpus = s.cpus ∧
    (destroy_task (some t) s).locked_cpus = s.locked_cpus ∧
    (destroy_task (some t) s).freed_pages = s.freed_pages ++ t.stack.toList ∧
    (destroy_task (some t) s).freed_tasks = s.freed_tasks ++ [t.id] := by
  obtain ⟨-, -, -, hcpu, -, -, hstack⟩ := new_task_fields h
  refine ⟨hcpu, ?_, ?_, ?_, ?_, ?_⟩
  · intro hty
    rw [hstack, if_pos hty]
  all_goals simp [destroy_task, hcpu]

/-- C6 witness: a concrete user task with an allocated page, destroyed in a
system with one processor. -/
theorem destroy_unsubmitted_task_touches_no_queue_witness :
    ∃ t, new_task true 4 "w" const_zero 0 task_type.USER (some 9) = some t ∧
      (t.cpu = none ∧ (task_type.USER = task_type.USER → t.stack = some 9) ∧
      (destroy_task (some t) ⟨[⟨0, []⟩], [], [], []⟩).cpus = [⟨0, []⟩] ∧
      (destroy_task (some t) ⟨[⟨0, []⟩], [], [], []⟩).locked_cpus = [] ∧
      (destroy_task (some t) ⟨[⟨0, []⟩], [], [], []⟩).freed_pages = [] ++ t.stack.toList ∧
      (destroy_task (some t) ⟨[⟨0, []⟩], [], [], []⟩).freed_tasks = [] ++ [t.id]) :=
  ⟨{ id := 4, gid := 0, name := "w", func := const_zero, arg := 0,
     type := task_type.USER, state := task_state.READY, rep := 0,
     exec_count := 0, result := 0, stack := some 9, cpu := none }, rfl,
    destroy_unsubmitted_task_touches_no_queue 4 "w" const_zero 0
      task_type.USER (some 9) _ ⟨[⟨0, []⟩], [], [], []⟩ rfl⟩

/-- Type, state and stack of a task, for observing `new_task` results. -/
def task_view (t : task_t) : task_type × task_state × Option Nat :=
  (t.type, t.state, t.stack)

/-- C7 counterexample: when the user-stack page allocation fails, `new_task`
still hands back a prepared user task in state READY whose stack field is
NULL -- the unchecked allocation result goes straight into the task. -/
theorem user_task_null_stack_on_failed_allocation :
    (new_task true 0 "u" const_zero 0 task_type.USER none).map task_view =
      some (task_type.USER, task_state.READY, none) := rfl

/-- Helper: the lifecycle operations after preparation (submit, run, retire)
never change a task's stack field. -/
lemma step_lifecycle_preserves_stack (op : sched_op) (t t1 : task_t)
    (evs : List event) (hop : op.is_lifecycle = true)
    (h : step op t = some (some t1, evs)) : t1.stack = t.stack := by
  cases op with
  | prepare n f a ty pa => simp [sched_op.is_lifecycle] at hop
  | submit target =>
    cases target with
    | none =>
      simp [step, schedule_task] at h
      obtain ⟨h1, -⟩ := h
      rw [← h1]
    | some cid =>
      by_cases hr : t.state = task_state.READY <;>
        simp [step, schedule_task, set_task_state, hr] at h
      obtain ⟨h1, -⟩ := h
      rw [← h1]
  | run =>
    by_cases hs : t.state = task_state.SCHEDULED <;>
      simp [step, run_task, set_task_state, hs] at h
    obtain ⟨h1, -⟩ := h
    rw [← h1]
  | retire =>
    by_cases hd : t.state = task_state.DONE
    · by_cases h0 : t.rep = TASK_REPEAT_ONCE
      · simp [step, process_task_repeat, hd, h0] at h
      · have hne : ¬ (TASK_REPEAT_LOOP = TASK_REPEAT_ONCE) := by decide
        by_cases hl : t.rep = TASK_REPEAT_LOOP <;>
          simp [step, process_task_repeat, set_task_state, hd, h0, hl, hne] at h <;>
          · obtain ⟨h1, -⟩ := h
            rw [← h1]
    · simp [step, hd] at h

/-- Helper: along any sequence of lifecycle operations every reached task
value keeps the initial stack field. -/
lemma task_states_along_stack (ops : List sched_op) :
    ∀ t : task_t, (∀ op ∈ ops, op.is_lifecycle = true) →
      ∀ u ∈ task_states_along ops t, u.stack = t.stack := by
  induction ops with
  | nil =>
    intro t _ u hu
    simp [task_states_along] at hu
    rw [hu]
  | cons op ops ih =>
    intro t hops u hu
    have hop : op.is_lifecycle = true := hops op (by simp)
    have hops1 : ∀ o ∈ ops, o.is_lifecycle = true := fun o ho => hops o (by simp [ho])
    cases hstep : step op t with
    | none =>
      simp [task_states_along, hstep] at hu
      rw [hu]
    | some r =>
      obtain ⟨ot1, evs⟩ := r
      cases ot1 with
      | none =>
        simp [task_states_along, hstep] at hu
        rw [hu]
      | some t1 =>
        simp [task_states_along, hstep] at hu
        rcases hu with hu | hu
        · rw [hu]
        · rw [← step_lifecycle_preserves_stack op t t1 evs hop hstep]
          exact ih t1 hops1 u hu

/-- C7 (amended: provided the stack-page allocation at preparation
succeeded): a user task built by `new_task` with an allocated page holds that
page, non-NULL, from READY on through every lifecycle operation (submit, run,
retire) up to its destruction, and destruction releases exactly that one
page. -/
theorem user_task_stack_nonnull_until_destroyed (tid : Nat) (n : String)
    (f : Int → Int) (a : Int) (p : Nat) (ops : List sched_op) (t u v : task_t)
    (s : sys_state) (h : new_task true tid n f a task_type.USER (some p) = some t)
    (hops : ∀ op ∈ ops, op.is_lifecycle = true)
    (hu : u ∈ task_states_along ops t) (hv : v.stack = some p) :
    t.state = task_state.READY ∧ t.stack = some p ∧ u.stack = some p ∧
    (destroy_task (some v) s).freed_pages = s.freed_pages ++ [p] := by
  obtain ⟨hst, -, -, -, -, -, hstack⟩ := new_task_fields h
  have hstk : t.stack = some p := by rw [hstack]; simp
  refine ⟨hst, hstk, ?_, ?_⟩
  · rw [task_states_along_stack ops t hops u hu, hstk]
  · rw [(destroy_task_frees v s).1, hv]
    rfl

/-- C7 witness: page 5, driven through submit, run and retire. -/
theorem user_task_stack_nonnull_until_destroyed_witness :
    (⟨3, 0, "v", const_zero, 0, task_type.USER, task_state.READY, 0, 0, 0,
      some 5, none⟩ : task_t).state = task_state.READY ∧
    (⟨3, 0, "v", const_zero, 0, task_type.USER, task_state.READY, 0, 0, 0,
      some 5, none⟩ : task_t).stack = some 5 ∧
    (⟨3, 0, "v", const_zero, 0, task_type.USER, task_state.READY, 0, 0, 0,
      some 5, none⟩ : task_t).stack = some 5 ∧
    (destroy_task (some ⟨3, 0, "v", const_zero, 0, task_type.USER,
        task_state.READY, 0, 0, 0, some 5, none⟩)
      ⟨[], [], [], []⟩).freed_pages = [] ++ [5] :=
  user_task_stack_nonnull_until_destroyed 3 "v" const_zero 0 5
    [sched_op.submit (some 0), sched_op.run, sched_op.retire]
    ⟨3, 0, "v", const_zero, 0, task_type.USER, task_state.READY, 0, 0, 0,
      some 5, none⟩
    ⟨3, 0, "v", const_zero, 0, task_type.USER, task_state.READY, 0, 0, 0,
      some 5, none⟩
    ⟨3, 0, "v", const_zero, 0, task_type.USER, task_state.READY, 0, 0, 0,
      some 5, none⟩
    ⟨[], [], [], []⟩ rfl (by decide) (by simp [task_states_along]) rfl

/-- Helper: a no-change event is legal. -/
lemma valid_event_self (rep0 : Nat) (s : task_state) : valid_event (rep0, s, s) :=
  Or.inl rfl

/-- Helper: a forward-chain event is legal. -/
lemma valid_event_forward (rep0 : Nat) (s s1 : task_state)
    (h : s1.rank = s.rank + 1) : valid_event (rep0, s, s1) :=
  Or.inr (Or.inl h)

/-- Helper: the backward DONE to SCHEDULED event is legal when the repeat
policy at retirement is not the ONCE sentinel. -/
lemma valid_event_back (rep0 : Nat) (h0 : rep0 ≠ TASK_REPEAT_ONCE) :
    valid_event (rep0, task_state.DONE, task_state.SCHEDULED) := by
  refine Or.inr (Or.inr ⟨rfl, rfl, ?_⟩)
  by_cases hl : rep0 = TASK_REPEAT_LOOP
  · exact Or.inl hl
  · exact Or.inr ⟨Nat.pos_of_ne_zero h0, hl⟩

/-- Helper: every state-transition event a single scheduler operation records
is legal. -/
lemma step_events_valid (op : sched_op) (t : task_t)
    (r : Option task_t × List event) (hstep : step op t = some r) :
    ∀ e ∈ r.2, valid_event e := by
  intro e he
  cases op with
  | prepare n f a ty pa =>
    by_cases hr : t.state.rank ≤ task_state.READY.rank
    · cases ty <;> simp [step, prepare_task, set_task_state, hr] at hstep <;>
      · rw [← hstep] at he
        simp at he
        subst he
        cases hts : t.state with
        | NEW => exact valid_event_forward _ _ _ rfl
        | READY => exact valid_event_self _ _
        | SCHEDULED => rw [hts] at hr; simp [task_state.rank] at hr
        | RUNNING => rw [hts] at hr; simp [task_state.rank] at hr
        | DONE => rw [hts] at hr; simp [task_state.rank] at hr
    · cases ty <;> simp [step, prepare_task, set_task_state, hr] at hstep
  | submit target =>
    cases target with
    | none =>
      simp [step, schedule_task] at hstep
      rw [← hstep] at he
      simp at he
    | some cid =>
      by_cases hr : t.state = task_state.READY <;>
        simp [step, schedule_task, set_task_state, hr] at hstep
      rw [← hstep] at he
      simp at he
      subst he
      exact valid_event_forward _ _ _ rfl
  | run =>
    by_cases hs : t.state = task_state.SCHEDULED <;>
      simp [step, run_task, set_task_state, hs] at hstep
    rw [← hstep] at he
    simp at he
    rcases he with rfl | rfl <;> exact valid_event_forward _ _ _ rfl
  | retire =>
    by_cases hd : t.state = task_state.DONE
    · by_cases h0 : t.rep = TASK_REPEAT_ONCE
      · simp [step, process_task_repeat, hd, h0] at hstep
        rw [← hstep] at he
        simp at he
      · by_cases hl : t.rep = TASK_REPEAT_LOOP
        · have hne : ¬ (TASK_REPEAT_LOOP = TASK_REPEAT_ONCE) := by decide
          simp [step, process_task_repeat, set_task_state, hd, h0, hl, hne] at hstep
          rw [← hstep] at he
          simp at he
          subst he
          exact valid_event_back TASK_REPEAT_LOOP (by decide)
        · simp [step, process_task_repeat, set_task_state, hd, h0, hl] at hstep
          rw [← hstep] at he
          simp at he
          subst he
          exact valid_event_back t.rep h0
    · simp [step, hd] at hstep

/-- C2: along every sequence of scheduler operations applied to any task,
every recorded state-transition event is legal: the state is unchanged or
moves one step forward along NEW, READY, SCHEDULED, RUNNING, DONE, except for
the single backward edge DONE to SCHEDULED, which occurs only at a retirement
whose repeat policy is LOOP or a finite count N > 0. -/
theorem state_machine_forward_only (ops : List sched_op) (t : task_t)
    (e : event) (he : e ∈ exec_ops ops t) : valid_event e := by
  induction ops generalizing t with
  | nil => simp [exec_ops] at he
  | cons op ops ih =>
    cases hstep : step op t with
    | none => simp [exec_ops, hstep] at he
    | some r =>
      obtain ⟨ot1, evs⟩ := r
      cases ot1 with
      | none =>
        simp [exec_ops, hstep] at he
        exact step_events_valid op t (none, evs) hstep e (by simp [he])
      | some t1 =>
        simp [exec_ops, hstep] at he
        rcases he with he | he
        · exact step_events_valid op t (some t1, evs) hstep e (by simp [he])
        · exact ih t1 he

/-- C2 witness: the first event of a full prepare, submit, run, retire
lifecycle of a fresh task. -/
theorem state_machine_forward_only_witness :
    (0, task_state.NEW, task_state.READY) ∈
      exec_ops [sched_op.prepare "x" const_zero 0 task_type.KERNEL none,
        sched_op.submit (some 0), sched_op.run, sched_op.retire]
        (wtask task_state.NEW 0 0) ∧
    valid_event (0, task_state.NEW, task_state.READY) :=
  ⟨by decide,
    state_machine_forward_only
      [sched_op.prepare "x" const_zero 0 task_type.KERNEL none,
        sched_op.submit (some 0), sched_op.run, sched_op.retire]
      (wtask task_state.NEW 0 0) (0, task_state.NEW, task_state.READY)
      (by decide)⟩

/-- Helper: a scan reports not-busy exactly when every task it observes that
matches the group is observed DONE. -/
lemma wait_pass_busy_false_iff (q : List task_t) (group : Nat) :
    wait_pass_busy q group = false ↔
      ∀ t ∈ q, (group = TASK_GROUP_ALL ∨ t.gid = group) →
        t.state = task_state.DONE := by
  simp only [wait_pass_busy, task_group_matches, List.any_eq_false,
    Bool.and_eq_true, Bool.or_eq_true, beq_iff_eq, Bool.not_eq_true']
  constructor
  · intro h t ht hm
    have h1 := h t ht
    by_cases hsd : t.state = task_state.DONE
    · exact hsd
    · exact absurd ⟨hm, by simp [hsd]⟩ h1
  · intro h t ht hc
    obtain ⟨hm, hb⟩ := hc
    have hd := h t ht hm
    simp [hd] at hb

/-- Helper: the group-wait loop, when it returns the index of some pass,
started at or before that pass, observed not-busy on it, and observed busy on
every earlier pass from its start index. -/
lemma wait_loop_invariant (fuel : Nat) :
    ∀ (snap : Nat → List task_t) (group i k : Nat),
      wait_for_task_group_loop fuel snap group i = some k →
        i ≤ k ∧ wait_pass_busy (snap k) group = false ∧
        ∀ j, i ≤ j → j < k → wait_pass_busy (snap j) group = true := by
  induction fuel with
  | zero =>
    intro snap group i k h
    simp [wait_for_task_group_loop] at h
  | succ fuel ih =>
    intro snap group i k h
    rw [wait_for_task_group_loop] at h
    by_cases hb : wait_pass_busy (snap i) group = true
    · rw [if_pos hb] at h
      obtain ⟨h1, h2, h3⟩ := ih snap group (i + 1) k h
      refine ⟨by omega, h2, fun j hij hjk => ?_⟩
      rcases Nat.eq_or_lt_of_le hij with heq | hlt
      · rw [← heq]
        exact hb
      · exact h3 j hlt hjk
    · rw [if_neg hb] at h
      obtain rfl : i = k := by cases h; rfl
      exact ⟨le_rfl, by simpa using hb,
        fun j h1 h2 => absurd (Nat.lt_of_le_of_lt h1 h2) (lt_irrefl i)⟩

/-- C3: if `wait_for_task_group` returns after pass k, then every task in the
pass-k view of the processor's queue that matches the group (every task, for
the wildcard) was observed in state DONE on that complete scan; and every
pass before k observed some matching task not DONE and therefore triggered
another full pass. -/
theorem wait_for_group_full_clean_pass (fuel : Nat) (snap : Nat → List task_t)
    (group k : Nat) (tk : task_t) (j : Nat)
    (h : wait_for_task_group fuel snap group = some k) (ht : tk ∈ snap k)
    (hm : group = TASK_GROUP_ALL ∨ tk.gid = group) (hj : j < k) :
    tk.state = task_state.DONE ∧ wait_pass_busy (snap j) group = true := by
  obtain ⟨-, h2, h3⟩ := wait_loop_invariant fuel snap group 0 k h
  exact ⟨(wait_pass_busy_false_iff (snap k) group).mp h2 tk ht hm,
    h3 j (Nat.zero_le j) hj⟩

/-- C3 witness: a queue whose task is RUNNING on pass 0 and DONE from pass 1
on; the wait returns after pass 1, having seen pass 0 busy. -/
def wsnap (i : Nat) : List task_t :=
  if i = 0 then [wtask task_state.RUNNING 0 0] else [wtask task_state.DONE 0 0]

/-- C3 witness statement. -/
theorem wait_for_group_full_clean_pass_witness :
    (wtask task_state.DONE 0 0).state = task_state.DONE ∧
    wait_pass_busy (wsnap 0) TASK_GROUP_ALL = true :=
  wait_for_group_full_clean_pass 3 wsnap TASK_GROUP_ALL 1
    (wtask task_state.DONE 0 0) 0 (by decide) (by simp [wsnap])
    (Or.inl rfl) (by decide)

/-- C10 witness: a concretely constructed kernel task scheduled on processor
0 and drained. -/
theorem constructed_task_defaults_to_once_witness :
    (⟨2, 0, "k", const_zero, 0, task_type.KERNEL, task_state.READY, 0, 0, 0,
      none, none⟩ : task_t).rep = TASK_REPEAT_ONCE ∧
    ∃ t1 cpus1, schedule_task ⟨2, 0, "k", const_zero, 0, task_type.KERNEL,
          task_state.READY, 0, 0, 0, none, none⟩ (some 0) [⟨0, []⟩] =
        some (0, t1, cpus1, [(task_state.READY, task_state.SCHEDULED)]) ∧
      ∃ tf, run_tasks_loop 3 [t1] = some [tf] ∧ tf.exec_count = 1 :=
  constructed_task_defaults_to_once 2 "k" const_zero 0 task_type.KERNEL none 0
    [⟨0, []⟩]
    ⟨2, 0, "k", const_zero, 0, task_type.KERNEL, task_state.READY, 0, 0, 0,
      none, none⟩ rfl
